import Mathlib

/-!
Shallow embedding of the ssh-file-transfer-api transfer orchestration core:
the session factory `NewClient` and the orchestrator `TransferFile` from
internal/ssh/ssh-client-go.go, and the HTTP handler `Api.TransferFile`
(with the service configuration it reads) from the api and config packages.

External effects (filesystem reads, dialing, the SFTP session, directory
creation, remote file creation, the byte copy, and the clock) are supplied
by an explicit `Env`; each embedded function also returns the list of
side-effect `Event`s it performed, in order, so that claims about resource
release, stage ordering and the absence of network activity can be stated
over the trace.  Go `defer` statements are translated by emitting the
corresponding close events, in LIFO order of acquisition, at every return
point of the function.

The clock is modelled by a base instant `Env.nano`: the `time.Now()` call
at the top of `TransferFile` yields `nano`, the `time.Now()` at a return
yields `nano + 1`, and the extra `time.Now().UnixNano()` used to mint the
identifier on the success path yields `nano + 2`.  `Duration` (a rendered
string in Go) is modelled as the numeric difference of the two instants.
-/

namespace SshFta

/-- An SSH authentication method (`ssh.AuthMethod`): `ssh.Password` carries
the password, `ssh.PublicKeys` carries the parsed signer (modelled as the
opaque token produced by the key parser of the environment). -/
inductive AuthMethod where
  | password (secret : String)
  | publicKeys (signer : String)
  deriving DecidableEq, Repr

/-- `ssh.ClientConfig` as built by this codebase: user, auth methods, the
always-on `InsecureIgnoreHostKey` host-key callback, and the fixed
30-second timeout. -/
structure ClientConfig where
  user : String
  auth : List AuthMethod
  insecureIgnoreHostKey : Bool := true
  timeoutSeconds : Nat := 30
  deriving DecidableEq, Repr

/-- `ssh.Client` wrapper: holds the service-default client configuration. -/
structure Client where
  config : ClientConfig
  deriving DecidableEq, Repr

/-- The three distinct error sites of the session factory (and of the
inline per-request rebuild in `TransferFile`): no credential provided,
key file unreadable, key material unparsable.  The path of the offending
key file is recorded. -/
inductive ClientError where
  | noCredential
  | keyRead (path : String)
  | keyParse (path : String)
  deriving DecidableEq, Repr

/-- The `fmt.Errorf` message texts of the three factory error sites. -/
def ClientError.message : ClientError → String
  | .noCredential => "either password or keyPath must be provided"
  | .keyRead p => "unable to read private key: open " ++ p ++ ": no such file or directory"
  | .keyParse _ => "unable to parse private key: ssh: no key found"

/-- `models.FileTransferRequest`. -/
structure FileTransferRequest where
  targetHost : String
  targetPort : Int
  sourceFilePath : String
  targetFilePath : String
  username : String := ""
  password : String := ""
  privateKeyPath : String := ""
  deriving DecidableEq, Repr

/-- `models.FileTransferResponse`.  `duration` is numeric here (Go renders
the same difference as a string). -/
structure FileTransferResponse where
  id : String := ""
  status : String
  sourceFile : String
  targetFile : String
  targetHost : String
  bytesWritten : Int := 0
  startTime : Nat
  endTime : Nat
  duration : Nat
  error : String := ""
  deriving DecidableEq, Repr

/-- Side effects performed by the embedded functions, in order.  `Attempt`
events mark a stage being entered (the call being made); `Open` events mark
the acquisition succeeding; `Close` events are the released handles
(emitted where the corresponding Go `defer` fires). -/
inductive Event where
  | keyRead (path : String)
  | dialAttempt (addr : String)
  | connOpen
  | connClose
  | sftpAttempt
  | sftpOpen
  | sftpClose
  | srcAttempt (path : String)
  | srcOpen (path : String)
  | srcClose
  | mkdirAttempt (dir : String)
  | createAttempt (path : String)
  | dstOpen (path : String)
  | dstClose
  | copyAttempt
  deriving DecidableEq, Repr

/-- Outcome of the `io.Copy` stage: either the whole source is copied, or
the copy fails after `partialBytes` bytes with an error message. -/
inductive CopyOutcome where
  | ok
  | fail (partialBytes : Int) (msg : String)
  deriving DecidableEq, Repr

/-- The environment: local filesystem contents (`os.ReadFile` / `os.Open`
succeed exactly on paths mapped to `some` contents), the private-key
parser, per-call outcomes for dial / SFTP-session / mkdir / create, the
copy outcome, and the clock base. -/
structure Env where
  localFiles : String → Option String
  keyParse : String → Option String
  dialErr : String → ClientConfig → Option String
  sftpErr : Option String
  mkdirErr : String → Option String
  createErr : String → Option String
  copyOutcome : CopyOutcome
  nano : Nat

instance {A B : Type} [DecidableEq A] [DecidableEq B] : DecidableEq (Except A B) :=
  fun a b =>
    match a, b with
    | .ok x, .ok y => if h : x = y then .isTrue (by rw [h]) else .isFalse (by simp [h])
    | .error x, .error y => if h : x = y then .isTrue (by rw [h]) else .isFalse (by simp [h])
    | .ok _, .error _ => .isFalse (by simp)
    | .error _, .ok _ => .isFalse (by simp)

/-- Split a character list on the path separator. -/
def splitOnSlash (cs : List Char) : List (List Char) :=
  match cs with
  | [] => [[]]
  | c :: rest =>
    let r := splitOnSlash rest
    if c = '/' then [] :: r
    else
      match r with
      | [] => [[c]]
      | h :: t => (c :: h) :: t

/-- Join path components with the separator. -/
def joinWithSlash : List String → String
  | [] => ""
  | [s] => s
  | s :: rest => s ++ "/" ++ joinWithSlash rest

/-- `filepath.Dir` restricted to the slash-separated paths this system
handles: drop the last component; a bare file name yields ".", a
root-level file yields "/". -/
def filepathDir (p : String) : String :=
  let parts := (splitOnSlash p.data).map String.mk
  let init := parts.dropLast
  if init = [] then "."
  else if init.all (fun s => s = "") then "/"
  else joinWithSlash init

/-- `os.Open` / `os.ReadFile` error text for a missing path. -/
def openErrMsg (path : String) : String :=
  "open " ++ path ++ ": no such file or directory"

namespace Ssh

/-- `ssh.NewClient(username, password, keyPath)`: password preferred when
non-empty; otherwise the private key at `keyPath` is read and parsed;
otherwise the no-credential error.  Returns the trace of key-file reads
together with the Go `(client, error)` pair. -/
def NewClient (env : Env) (username password keyPath : String) :
    List Event × Except ClientError Client :=
  if password ≠ "" then
    ([], .ok ⟨{ user := username, auth := [.password password] }⟩)
  else if keyPath ≠ "" then
    match env.localFiles keyPath with
    | none => ([.keyRead keyPath], .error (.keyRead keyPath))
    | some contents =>
      match env.keyParse contents with
      | none => ([.keyRead keyPath], .error (.keyParse keyPath))
      | some signer =>
        ([.keyRead keyPath], .ok ⟨{ user := username, auth := [.publicKeys signer] }⟩)
  else
    ([], .error .noCredential)

/-- Lines 59-87 of `TransferFile`: the client configuration actually used
for dialing.  When the request sets any of username/password/keyPath, a
fresh configuration is built from the three request fields alone
(password branch, else key branch, else no auth method at all); otherwise
the service-default configuration is used unchanged.  An error here is
returned by `TransferFile` as a bare error with no response. -/
def resolveDialConfig (env : Env) (defc : ClientConfig) (req : FileTransferRequest) :
    List Event × Except ClientError ClientConfig :=
  if req.username ≠ "" ∨ req.password ≠ "" ∨ req.privateKeyPath ≠ "" then
    if req.password ≠ "" then
      ([], .ok { user := req.username, auth := [.password req.password] })
    else if req.privateKeyPath ≠ "" then
      match env.localFiles req.privateKeyPath with
      | none => ([.keyRead req.privateKeyPath], .error (.keyRead req.privateKeyPath))
      | some contents =>
        match env.keyParse contents with
        | none => ([.keyRead req.privateKeyPath], .error (.keyParse req.privateKeyPath))
        | some signer =>
          ([.keyRead req.privateKeyPath],
           .ok { user := req.username, auth := [.publicKeys signer] })
    else
      ([], .ok { user := req.username, auth := [] })
  else
    ([], .ok defc)

/-- The failure response literal repeated at every error return of
`TransferFile`: status "failed", echoed paths and host, the stage error
string, and the byte count (zero except at the copy stage). -/
def failResp (req : FileTransferRequest) (startNano : Nat) (errStr : String)
    (bytes : Int) : FileTransferResponse :=
  { status := "failed", sourceFile := req.sourceFilePath,
    targetFile := req.targetFilePath, targetHost := req.targetHost,
    bytesWritten := bytes, startTime := startNano, endTime := startNano + 1,
    duration := 1, error := errStr }

/-- `(*Client).TransferFile(req)`: resolve the dial configuration, dial
host:port, layer an SFTP session, open the local source, ensure the remote
target directory, create the remote file, copy the bytes, and return the
Go `(response, error)` pair together with the event trace.  Deferred
closes are emitted at each return point in LIFO order of acquisition. -/
def TransferFile (env : Env) (c : Client) (req : FileTransferRequest) :
    List Event × Option FileTransferResponse × Option String :=
  let startNano := env.nano
  match Ssh.resolveDialConfig env c.config req with
  | (tr0, .error e) => (tr0, none, some e.message)
  | (tr0, .ok config) =>
    let addr := req.targetHost ++ ":" ++ toString req.targetPort
    let tr1 := tr0 ++ [.dialAttempt addr]
    match env.dialErr addr config with
    | some e =>
      (tr1, some (failResp req startNano ("failed to connect to SSH server: " ++ e) 0),
       some e)
    | none =>
      let tr2 := tr1 ++ [.connOpen, .sftpAttempt]
      match env.sftpErr with
      | some e =>
        (tr2 ++ [.connClose],
         some (failResp req startNano ("failed to create SFTP client: " ++ e) 0), some e)
      | none =>
        let tr3 := tr2 ++ [.sftpOpen, .srcAttempt req.sourceFilePath]
        match env.localFiles req.sourceFilePath with
        | none =>
          (tr3 ++ [.sftpClose, .connClose],
           some (failResp req startNano
             ("failed to open source file: " ++ openErrMsg req.sourceFilePath) 0),
           some (openErrMsg req.sourceFilePath))
        | some contents =>
          let targetDir := filepathDir req.targetFilePath
          let tr4 := tr3 ++ [.srcOpen req.sourceFilePath, .mkdirAttempt targetDir]
          match env.mkdirErr targetDir with
          | some e =>
            (tr4 ++ [.srcClose, .sftpClose, .connClose],
             some (failResp req startNano ("failed to create target directory: " ++ e) 0),
             some e)
          | none =>
            let tr5 := tr4 ++ [.createAttempt req.targetFilePath]
            match env.createErr req.targetFilePath with
            | some e =>
              (tr5 ++ [.srcClose, .sftpClose, .connClose],
               some (failResp req startNano ("failed to create target file: " ++ e) 0),
               some e)
            | none =>
              let tr6 := tr5 ++ [.dstOpen req.targetFilePath, .copyAttempt]
              match env.copyOutcome with
              | .fail m msg =>
                (tr6 ++ [.dstClose, .srcClose, .sftpClose, .connClose],
                 some (failResp req startNano ("failed to copy file contents: " ++ msg) m),
                 some msg)
              | .ok =>
                (tr6 ++ [.dstClose, .srcClose, .sftpClose, .connClose],
                 some { id := "transfer-" ++ toString (startNano + 2),
                        status := "completed",
                        sourceFile := req.sourceFilePath,
                        targetFile := req.targetFilePath,
                        targetHost := req.targetHost,
                        bytesWritten := Int.ofNat contents.length,
                        startTime := startNano, endTime := startNano + 1,
                        duration := 1 },
                 none)

end Ssh

/-- The SSH-related service configuration fields of `config.Config`. -/
structure Config where
  sshKeyPath : String := ""
  sshUsername : String := ""
  sshPassword : String := ""
  deriving DecidableEq, Repr

namespace Api

/-- Outcome of the HTTP handler: 400 with an APIError, 500 with an
APIError, 500 carrying the failed transfer response, or 200 carrying the
(possibly absent) response pointer. -/
inductive HandlerResult where
  | badRequest (message details : String)
  | apiError (message details : String)
  | failedResult (r : FileTransferResponse)
  | ok (r : Option FileTransferResponse)
  deriving DecidableEq, Repr

/-- The gin `ShouldBindJSON` validation induced by the four
`binding:"required"` tags on `FileTransferRequest`: a required field fails
validation on its zero value — the empty string for the host and the two
paths, and zero for the port. -/
def validateRequest (req : FileTransferRequest) : Bool :=
  req.targetHost ≠ "" && req.targetPort ≠ 0 &&
    req.sourceFilePath ≠ "" && req.targetFilePath ≠ ""

/-- `(*Server).TransferFile` handler: bind/validate the payload, default
the port to 22 when zero, merge each credential field request-first with
the service default, build the client via the factory, run the transfer,
and map the `(response, error)` pair onto HTTP results. -/
def TransferFile (s : Config) (env : Env) (req0 : FileTransferRequest) :
    List Event × HandlerResult :=
  if validateRequest req0 = false then
    ([], .badRequest "Invalid request payload" "binding: required field has zero value")
  else
    let req := if req0.targetPort = 0 then { req0 with targetPort := 22 } else req0
    let username := if req.username = "" then s.sshUsername else req.username
    let password := if req.password = "" then s.sshPassword else req.password
    let keyPath := if req.privateKeyPath = "" then s.sshKeyPath else req.privateKeyPath
    match Ssh.NewClient env username password keyPath with
    | (tr1, .error e) => (tr1, .apiError "Failed to create SSH client" e.message)
    | (tr1, .ok client) =>
      match Ssh.TransferFile env client req with
      | (tr2, respO, some e) =>
        match respO with
        | some r => (tr1 ++ tr2, .failedResult r)
        | none => (tr1 ++ tr2, .apiError "Failed to transfer file" e)
      | (tr2, respO, none) => (tr1 ++ tr2, .ok respO)

end Api

/-- Whether the trace contains a dial (network connection attempt). -/
def hasDial (tr : List Event) : Bool :=
  tr.any fun e => match e with | .dialAttempt _ => true | _ => false

/-- Number of acquisitions of each of the four resources in a trace:
(transport connection, SFTP session, local source handle, remote
destination handle). -/
def openCounts (tr : List Event) : Nat × Nat × Nat × Nat :=
  (tr.countP fun e => match e with | .connOpen => true | _ => false,
   tr.countP fun e => match e with | .sftpOpen => true | _ => false,
   tr.countP fun e => match e with | .srcOpen _ => true | _ => false,
   tr.countP fun e => match e with | .dstOpen _ => true | _ => false)

/-- Number of releases of each of the four resources in a trace. -/
def closeCounts (tr : List Event) : Nat × Nat × Nat × Nat :=
  (tr.countP fun e => match e with | .connClose => true | _ => false,
   tr.countP fun e => match e with | .sftpClose => true | _ => false,
   tr.countP fun e => match e with | .srcClose => true | _ => false,
   tr.countP fun e => match e with | .dstClose => true | _ => false)

/-- Every resource acquired in the trace is also released in it. -/
def resourcesBalanced (tr : List Event) : Bool :=
  openCounts tr = closeCounts tr

/-- The stage-entry events of a trace, in order. -/
def stageFilter (tr : List Event) : List Event :=
  tr.filter fun e =>
    match e with
    | .dialAttempt _ => true
    | .sftpAttempt => true
    | .srcAttempt _ => true
    | .mkdirAttempt _ => true
    | .createAttempt _ => true
    | .copyAttempt => true
    | _ => false

/-- The full pipeline stage order of the code, for a given request:
dial, SFTP session, open local source, ensure remote directory, create
remote destination, stream copy. -/
def fullStages (req : FileTransferRequest) : List Event :=
  [.dialAttempt (req.targetHost ++ ":" ++ toString req.targetPort),
   .sftpAttempt,
   .srcAttempt req.sourceFilePath,
   .mkdirAttempt (filepathDir req.targetFilePath),
   .createAttempt req.targetFilePath,
   .copyAttempt]

/-- The exact condition under which `TransferFile` returns no response:
the request supplies a private key (and no password) and that key cannot
be read or parsed. -/
def keyOverrideFails (env : Env) (req : FileTransferRequest) : Bool :=
  req.password = "" && req.privateKeyPath ≠ "" &&
    (match env.localFiles req.privateKeyPath with
     | none => true
     | some contents => env.keyParse contents = none)

/-- A fully-successful environment: every local path holds "hello", keys
parse, dial / SFTP / mkdir / create succeed, and the copy completes. -/
def envAllOk : Env :=
  { localFiles := fun _ => some "hello",
    keyParse := fun _ => some "SIGNER",
    dialErr := fun _ _ => none,
    sftpErr := none,
    mkdirErr := fun _ => none,
    createErr := fun _ => none,
    copyOutcome := .ok,
    nano := 100 }

/-- Same as `envAllOk` but no local file exists. -/
def envNoFiles : Env := { envAllOk with localFiles := fun _ => none }

/-- Same as `envAllOk` but the stream copy fails after 3 bytes. -/
def envCopyFail : Env := { envAllOk with copyOutcome := .fail 3 "write: broken pipe" }

/-- A service-default client authenticating by password. -/
def defClient : Client := ⟨{ user := "svc", auth := [.password "svcpw"] }⟩

/-- A service-default client authenticating by private key only. -/
def keyClient : Client := ⟨{ user := "svc", auth := [.publicKeys "SIGNER"] }⟩

/-- A plain transfer request with no per-request credential overrides. -/
def reqPlain : FileTransferRequest :=
  { targetHost := "h", targetPort := 22, sourceFilePath := "/tmp/a.txt",
    targetFilePath := "/remote/dir/a.txt" }

/-- `reqPlain` with a request-level private-key path and nothing else. -/
def reqBadKey : FileTransferRequest := { reqPlain with privateKeyPath := "/k" }

/-- `reqPlain` with a request-level username and no credential fields. -/
def reqUserOnly : FileTransferRequest := { reqPlain with username := "u" }

/-- `reqPlain` with a request-level password and nothing else. -/
def reqPwOnly : FileTransferRequest := { reqPlain with password := "reqpw" }

/-- `reqPlain` with the port left at its zero value. -/
def reqZeroPort : FileTransferRequest := { reqPlain with targetPort := 0 }

/-- A service configuration carrying default username and password. -/
def cfgSvc : Config := { sshUsername := "svc", sshPassword := "svcpw" }

/-- A service configuration carrying no credentials at all. -/
def cfgNoCreds : Config := {}

/-- The failed response produced by `envCopyFail` on `reqPlain`. -/
def respCopyFail : FileTransferResponse :=
  Ssh.failResp reqPlain 100 "failed to copy file contents: write: broken pipe" 3

/-- The completed response produced by `envAllOk` on `reqPlain`. -/
def respOkPlain : FileTransferResponse :=
  { id := "transfer-102", status := "completed", sourceFile := "/tmp/a.txt",
    targetFile := "/remote/dir/a.txt", targetHost := "h", bytesWritten := 5,
    startTime := 100, endTime := 101, duration := 1 }

theorem append_left_ne_empty (s t : String) (h : s ≠ "") : s ++ t ≠ "" := by
  obtain ⟨sd⟩ := s
  obtain ⟨td⟩ := t
  intro hc
  apply h
  have hdat : sd ++ td = [] := congrArg String.data hc
  have hs : sd = [] := (List.append_eq_nil.mp hdat).1
  simp [hs]

theorem resolveDialConfig_trace (env : Env) (defc : ClientConfig)
    (req : FileTransferRequest) :
    (Ssh.resolveDialConfig env defc req).1 = [] ∨
    (Ssh.resolveDialConfig env defc req).1 = [Event.keyRead req.privateKeyPath] := by
  unfold Ssh.resolveDialConfig
  split
  · split
    · simp
    · split
      · split
        · simp
        · split <;> simp
      · simp
  · simp

theorem resolveDialConfig_trace2 (env : Env) (defc : ClientConfig)
    (req : FileTransferRequest) (tr0 : List Event)
    (cfgE : Except ClientError ClientConfig)
    (h : Ssh.resolveDialConfig env defc req = (tr0, cfgE)) :
    tr0 = [] ∨ tr0 = [Event.keyRead req.privateKeyPath] := by
  have h1 : (Ssh.resolveDialConfig env defc req).1 = tr0 := by rw [h]
  rcases resolveDialConfig_trace env defc req with h0 | h0 <;> rw [h1] at h0
  · exact Or.inl h0
  · exact Or.inr h0

theorem resolveDialConfig_error_iff (env : Env) (defc : ClientConfig)
    (req : FileTransferRequest) :
    (∃ e, (Ssh.resolveDialConfig env defc req).2 = .error e) ↔
      keyOverrideFails env req = true := by
  unfold Ssh.resolveDialConfig keyOverrideFails
  split
  · split
    · rename_i hp
      simp at hp
      simp [hp]
    · rename_i hp
      simp at hp
      split
      · rename_i hk
        split
        · simp_all
        · split <;> simp_all
      · rename_i hk
        simp at hk
        simp [hp, hk]
  · rename_i hcond
    push_neg at hcond
    simp [hcond.2.2]

/-- Exhaustive enumeration of the execution paths of `Ssh.TransferFile`:
configuration error, a failure at each of the six pipeline stages, or
success, each with its exact trace, response and error value. -/
theorem transfer_cases (env : Env) (c : Client) (req : FileTransferRequest)
    (tr : List Event) (ro : Option FileTransferResponse) (eo : Option String)
    (hret : Ssh.TransferFile env c req = (tr, ro, eo)) :
    (∃ tr0 e, Ssh.resolveDialConfig env c.config req = (tr0, .error e) ∧
      tr = tr0 ∧ ro = none ∧ eo = some e.message) ∨
    (∃ tr0 config e, Ssh.resolveDialConfig env c.config req = (tr0, .ok config) ∧
      env.dialErr (req.targetHost ++ ":" ++ toString req.targetPort) config = some e ∧
      tr = tr0 ++ [.dialAttempt (req.targetHost ++ ":" ++ toString req.targetPort)] ∧
      ro = some (Ssh.failResp req env.nano ("failed to connect to SSH server: " ++ e) 0) ∧
      eo = some e) ∨
    (∃ tr0 config e, Ssh.resolveDialConfig env c.config req = (tr0, .ok config) ∧
      env.dialErr (req.targetHost ++ ":" ++ toString req.targetPort) config = none ∧
      env.sftpErr = some e ∧
      tr = tr0 ++ [.dialAttempt (req.targetHost ++ ":" ++ toString req.targetPort)] ++
        [.connOpen, .sftpAttempt] ++ [.connClose] ∧
      ro = some (Ssh.failResp req env.nano ("failed to create SFTP client: " ++ e) 0) ∧
      eo = some e) ∨
    (∃ tr0 config, Ssh.resolveDialConfig env c.config req = (tr0, .ok config) ∧
      env.dialErr (req.targetHost ++ ":" ++ toString req.targetPort) config = none ∧
      env.sftpErr = none ∧
      env.localFiles req.sourceFilePath = none ∧
      tr = tr0 ++ [.dialAttempt (req.targetHost ++ ":" ++ toString req.targetPort)] ++
        [.connOpen, .sftpAttempt] ++ [.sftpOpen, .srcAttempt req.sourceFilePath] ++
        [.sftpClose, .connClose] ∧
      ro = some (Ssh.failResp req env.nano
        ("failed to open source file: " ++ openErrMsg req.sourceFilePath) 0) ∧
      eo = some (openErrMsg req.sourceFilePath)) ∨
    (∃ tr0 config contents e, Ssh.resolveDialConfig env c.config req = (tr0, .ok config) ∧
      env.dialErr (req.targetHost ++ ":" ++ toString req.targetPort) config = none ∧
      env.sftpErr = none ∧
      env.localFiles req.sourceFilePath = some contents ∧
      env.mkdirErr (filepathDir req.targetFilePath) = some e ∧
      tr = tr0 ++ [.dialAttempt (req.targetHost ++ ":" ++ toString req.targetPort)] ++
        [.connOpen, .sftpAttempt] ++ [.sftpOpen, .srcAttempt req.sourceFilePath] ++
        [.srcOpen req.sourceFilePath, .mkdirAttempt (filepathDir req.targetFilePath)] ++
        [.srcClose, .sftpClose, .connClose] ∧
      ro = some (Ssh.failResp req env.nano ("failed to create target directory: " ++ e) 0) ∧
      eo = some e) ∨
    (∃ tr0 config contents e, Ssh.resolveDialConfig env c.config req = (tr0, .ok config) ∧
      env.dialErr (req.targetHost ++ ":" ++ toString req.targetPort) config = none ∧
      env.sftpErr = none ∧
      env.localFiles req.sourceFilePath = some contents ∧
      env.mkdirErr (filepathDir req.targetFilePath) = none ∧
      env.createErr req.targetFilePath = some e ∧
      tr = tr0 ++ [.dialAttempt (req.targetHost ++ ":" ++ toString req.targetPort)] ++
        [.connOpen, .sftpAttempt] ++ [.sftpOpen, .srcAttempt req.sourceFilePath] ++
        [.srcOpen req.sourceFilePath, .mkdirAttempt (filepathDir req.targetFilePath)] ++
        [.createAttempt req.targetFilePath] ++ [.srcClose, .sftpClose, .connClose] ∧
      ro = some (Ssh.failResp req env.nano ("failed to create target file: " ++ e) 0) ∧
      eo = some e) ∨
    (∃ tr0 config contents m msg, Ssh.resolveDialConfig env c.config req = (tr0, .ok config) ∧
      env.dialErr (req.targetHost ++ ":" ++ toString req.targetPort) config = none ∧
      env.sftpErr = none ∧
      env.localFiles req.sourceFilePath = some contents ∧
      env.mkdirErr (filepathDir req.targetFilePath) = none ∧
      env.createErr req.targetFilePath = none ∧
      env.copyOutcome = .fail m msg ∧
      tr = tr0 ++ [.dialAttempt (req.targetHost ++ ":" ++ toString req.targetPort)] ++
        [.connOpen, .sftpAttempt] ++ [.sftpOpen, .srcAttempt req.sourceFilePath] ++
        [.srcOpen req.sourceFilePath, .mkdirAttempt (filepathDir req.targetFilePath)] ++
        [.createAttempt req.targetFilePath] ++ [.dstOpen req.targetFilePath, .copyAttempt] ++
        [.dstClose, .srcClose, .sftpClose, .connClose] ∧
      ro = some (Ssh.failResp req env.nano ("failed to copy file contents: " ++ msg) m) ∧
      eo = some msg) ∨
    (∃ tr0 config contents, Ssh.resolveDialConfig env c.config req = (tr0, .ok config) ∧
      env.dialErr (req.targetHost ++ ":" ++ toString req.targetPort) config = none ∧
      env.sftpErr = none ∧
      env.localFiles req.sourceFilePath = some contents ∧
      env.mkdirErr (filepathDir req.targetFilePath) = none ∧
      env.createErr req.targetFilePath = none ∧
      env.copyOutcome = .ok ∧
      tr = tr0 ++ [.dialAttempt (req.targetHost ++ ":" ++ toString req.targetPort)] ++
        [.connOpen, .sftpAttempt] ++ [.sftpOpen, .srcAttempt req.sourceFilePath] ++
        [.srcOpen req.sourceFilePath, .mkdirAttempt (filepathDir req.targetFilePath)] ++
        [.createAttempt req.targetFilePath] ++ [.dstOpen req.targetFilePath, .copyAttempt] ++
        [.dstClose, .srcClose, .sftpClose, .connClose] ∧
      ro = some { id := "transfer-" ++ toString (env.nano + 2), status := "completed",
                  sourceFile := req.sourceFilePath, targetFile := req.targetFilePath,
                  targetHost := req.targetHost, bytesWritten := Int.ofNat contents.length,
                  startTime := env.nano, endTime := env.nano + 1, duration := 1 } ∧
      eo = none) := by
  unfold Ssh.TransferFile at hret
  rcases heq : Ssh.resolveDialConfig env c.config req with ⟨tr0, cfgE⟩
  rw [heq] at hret
  rcases cfgE with e | config
  · simp only [Prod.mk.injEq] at hret
    refine Or.inl ⟨tr0, e, ?_, ?_, ?_, ?_⟩ <;> simp_all
  · simp only [] at hret
    rcases h1 : env.dialErr (req.targetHost ++ ":" ++ toString req.targetPort) config
      with _ | e
    · rw [h1] at hret
      rcases h2 : env.sftpErr with _ | e
      · rw [h2] at hret
        rcases h3 : env.localFiles req.sourceFilePath with _ | contents
        · rw [h3] at hret
          simp only [Prod.mk.injEq] at hret
          refine Or.inr (Or.inr (Or.inr (Or.inl
            ⟨tr0, config, ?_, ?_, ?_, ?_, ?_, ?_, ?_⟩))) <;> simp_all
        · rw [h3] at hret
          rcases h4 : env.mkdirErr (filepathDir req.targetFilePath) with _ | e
          · rw [h4] at hret
            rcases h5 : env.createErr req.targetFilePath with _ | e
            · rw [h5] at hret
              rcases h6 : env.copyOutcome with _ | ⟨m, msg⟩
              · rw [h6] at hret
                simp only [Prod.mk.injEq] at hret
                refine Or.inr (Or.inr (Or.inr (Or.inr (Or.inr (Or.inr (Or.inr
                  ⟨tr0, config, contents, ?_, ?_, ?_, ?_, ?_, ?_, ?_, ?_, ?_, ?_⟩)))))) <;>
                  simp_all
              · rw [h6] at hret
                simp only [Prod.mk.injEq] at hret
                refine Or.inr (Or.inr (Or.inr (Or.inr (Or.inr (Or.inr (Or.inl
                  ⟨tr0, config, contents, m, msg, ?_, ?_, ?_, ?_, ?_, ?_, ?_, ?_, ?_, ?_⟩)))))) <;>
                  simp_all
            · rw [h5] at hret
              simp only [Prod.mk.injEq] at hret
              refine Or.inr (Or.inr (Or.inr (Or.inr (Or.inr (Or.inl
                ⟨tr0, config, contents, e, ?_, ?_, ?_, ?_, ?_, ?_, ?_, ?_, ?_⟩))))) <;>
                simp_all
          · rw [h4] at hret
            simp only [Prod.mk.injEq] at hret
            refine Or.inr (Or.inr (Or.inr (Or.inr (Or.inl
              ⟨tr0, config, contents, e, ?_, ?_, ?_, ?_, ?_, ?_, ?_, ?_⟩)))) <;> simp_all
      · rw [h2] at hret
        simp only [Prod.mk.injEq] at hret
        refine Or.inr (Or.inr (Or.inl ⟨tr0, config, e, ?_, ?_, ?_, ?_, ?_, ?_⟩)) <;>
          simp_all
    · rw [h1] at hret
      simp only [Prod.mk.injEq] at hret
      refine Or.inr (Or.inl ⟨tr0, config, e, ?_, ?_, ?_, ?_, ?_⟩) <;> simp_all

end SshFta

namespace SshFta

/-- C1 (counterexample): at a concrete request supplying a private-key
path that cannot be read, the transfer operation returns NO result at all
(a nil response with only the secondary error), refuting the claim that
every environment outcome — including request-supplied key read/parse
failures — yields a fully-populated TransferResult. -/
theorem transfer_nil_result_on_request_key_failure :
    (Ssh.TransferFile envNoFiles defClient reqBadKey).2.1 = none ∧
    (Ssh.TransferFile envNoFiles defClient reqBadKey).2.2 ≠ none := by decide

/-- C1 (amended): for every request and environment outcome EXCEPT a
failure to read or parse a request-supplied private-key file, the transfer
operation returns a populated result carrying the start and end instants
and a completed/failed status, and any secondary error is also encoded in
the status and error fields of that result. -/
theorem transfer_always_returns_timestamped_result (env : Env) (c : Client)
    (req : FileTransferRequest) (tr : List Event) (ro : Option FileTransferResponse)
    (eo : Option String)
    (hk : keyOverrideFails env req = false)
    (hret : Ssh.TransferFile env c req = (tr, ro, eo)) :
    ∃ r, ro = some r ∧ r.startTime = env.nano ∧ r.endTime = env.nano + 1 ∧
      (r.status = "completed" ∨ r.status = "failed") ∧
      (∀ e, eo = some e → r.status = "failed" ∧ r.error ≠ "") := by
  have hiff := resolveDialConfig_error_iff env c.config req
  rw [hk] at hiff
  simp only [Bool.false_eq_true, iff_false] at hiff
  rcases transfer_cases env c req tr ro eo hret with
    ⟨tr0, e, hres, _, hro, _⟩ |
    ⟨tr0, config, e, hres, hd, htr, hro, heo⟩ |
    ⟨tr0, config, e, hres, hd, hs, htr, hro, heo⟩ |
    ⟨tr0, config, hres, hd, hs, hsrc, htr, hro, heo⟩ |
    ⟨tr0, config, contents, e, hres, hd, hs, hsrc, hmk, htr, hro, heo⟩ |
    ⟨tr0, config, contents, e, hres, hd, hs, hsrc, hmk, hcr, htr, hro, heo⟩ |
    ⟨tr0, config, contents, m, msg, hres, hd, hs, hsrc, hmk, hcr, hcp, htr, hro, heo⟩ |
    ⟨tr0, config, contents, hres, hd, hs, hsrc, hmk, hcr, hcp, htr, hro, heo⟩
  · exact absurd ⟨e, by rw [hres]⟩ hiff
  all_goals (subst hro; subst heo)
  · exact ⟨_, rfl, rfl, rfl, Or.inr rfl,
      fun e' he' => ⟨rfl, append_left_ne_empty _ _ (by decide)⟩⟩
  · exact ⟨_, rfl, rfl, rfl, Or.inr rfl,
      fun e' he' => ⟨rfl, append_left_ne_empty _ _ (by decide)⟩⟩
  · exact ⟨_, rfl, rfl, rfl, Or.inr rfl,
      fun e' he' => ⟨rfl, append_left_ne_empty _ _ (by decide)⟩⟩
  · exact ⟨_, rfl, rfl, rfl, Or.inr rfl,
      fun e' he' => ⟨rfl, append_left_ne_empty _ _ (by decide)⟩⟩
  · exact ⟨_, rfl, rfl, rfl, Or.inr rfl,
      fun e' he' => ⟨rfl, append_left_ne_empty _ _ (by decide)⟩⟩
  · exact ⟨_, rfl, rfl, rfl, Or.inr rfl,
      fun e' he' => ⟨rfl, append_left_ne_empty _ _ (by decide)⟩⟩
  · exact ⟨_, rfl, rfl, rfl, Or.inl rfl, fun e' he' => by cases he'⟩

/-- Witness for C1: the amended theorem applied at a concrete successful
environment, request and service client. -/
theorem transfer_always_returns_timestamped_result_witness :
    ∃ r, (Ssh.TransferFile envAllOk defClient reqPlain).2.1 = some r ∧
      r.startTime = envAllOk.nano ∧ r.endTime = envAllOk.nano + 1 ∧
      (r.status = "completed" ∨ r.status = "failed") ∧
      (∀ e, (Ssh.TransferFile envAllOk defClient reqPlain).2.2 = some e →
        r.status = "failed" ∧ r.error ≠ "") :=
  transfer_always_returns_timestamped_result envAllOk defClient reqPlain
    (Ssh.TransferFile envAllOk defClient reqPlain).1
    (Ssh.TransferFile envAllOk defClient reqPlain).2.1
    (Ssh.TransferFile envAllOk defClient reqPlain).2.2
    (by decide) rfl

/-- C2: when the configuration resolves, the dial succeeds, the SFTP
session opens, mkdir and create succeed and the copy completes, the
transfer returns a completed result whose bytesWritten equals the exact
byte length of the source file contents, echoing source path, destination
path and target host, with no secondary error. -/
theorem transfer_success_reports_exact_bytes (env : Env) (c : Client)
    (req : FileTransferRequest) (contents : String)
    (hk : keyOverrideFails env req = false)
    (hdial : ∀ a cfg, env.dialErr a cfg = none)
    (hsftp : env.sftpErr = none)
    (hmkdir : ∀ d, env.mkdirErr d = none)
    (hcreate : ∀ p, env.createErr p = none)
    (hsrc : env.localFiles req.sourceFilePath = some contents)
    (hcopy : env.copyOutcome = .ok) :
    ∃ r, (Ssh.TransferFile env c req).2.1 = some r ∧
      r.status = "completed" ∧
      r.bytesWritten = Int.ofNat contents.length ∧
      r.sourceFile = req.sourceFilePath ∧
      r.targetFile = req.targetFilePath ∧
      r.targetHost = req.targetHost ∧
      (Ssh.TransferFile env c req).2.2 = none := by
  have hiff := resolveDialConfig_error_iff env c.config req
  rw [hk] at hiff
  simp only [Bool.false_eq_true, iff_false] at hiff
  rcases transfer_cases env c req _ _ _ rfl with
    ⟨tr0, e, hres, _, hro, _⟩ |
    ⟨tr0, config, e, hres, hd, htr, hro, heo⟩ |
    ⟨tr0, config, e, hres, hd, hs, htr, hro, heo⟩ |
    ⟨tr0, config, hres, hd, hs, hsrc2, htr, hro, heo⟩ |
    ⟨tr0, config, contents2, e, hres, hd, hs, hsrc2, hmk, htr, hro, heo⟩ |
    ⟨tr0, config, contents2, e, hres, hd, hs, hsrc2, hmk, hcr, htr, hro, heo⟩ |
    ⟨tr0, config, contents2, m, msg, hres, hd, hs, hsrc2, hmk, hcr, hcp, htr, hro, heo⟩ |
    ⟨tr0, config, contents2, hres, hd, hs, hsrc2, hmk, hcr, hcp, htr, hro, heo⟩
  · exact absurd ⟨e, by rw [hres]⟩ hiff
  · rw [hdial] at hd; cases hd
  · rw [hsftp] at hs; cases hs
  · rw [hsrc] at hsrc2; cases hsrc2
  · rw [hmkdir] at hmk; cases hmk
  · rw [hcreate] at hcr; cases hcr
  · rw [hcopy] at hcp; cases hcp
  · rw [hsrc] at hsrc2
    injection hsrc2 with hc
    subst hc
    exact ⟨_, hro, rfl, rfl, rfl, rfl, rfl, heo⟩

/-- Witness for C2: a 5-byte source file transferred in a fully
successful environment yields bytesWritten 5. -/
theorem transfer_success_reports_exact_bytes_witness :
    ∃ r, (Ssh.TransferFile envAllOk defClient reqPlain).2.1 = some r ∧
      r.status = "completed" ∧
      r.bytesWritten = Int.ofNat ("hello".length) ∧
      r.sourceFile = reqPlain.sourceFilePath ∧
      r.targetFile = reqPlain.targetFilePath ∧
      r.targetHost = reqPlain.targetHost ∧
      (Ssh.TransferFile envAllOk defClient reqPlain).2.2 = none :=
  transfer_success_reports_exact_bytes envAllOk defClient reqPlain "hello"
    (by decide) (fun _ _ => rfl) rfl (fun _ => rfl) (fun _ => rfl) rfl rfl

/-- C3 (counterexample): a request that sets only the username (no
password, no key path) triggers the override branch, but the configuration
used for dialing is NOT what the session factory would build from the
request-level values: the code silently produces a configuration with no
authentication methods where the factory fails with the no-credential
error. -/
theorem dial_config_differs_from_factory_on_username_only :
    (Ssh.resolveDialConfig envAllOk keyClient.config reqUserOnly).2 ≠
      ((Ssh.NewClient envAllOk reqUserOnly.username reqUserOnly.password
          reqUserOnly.privateKeyPath).2).map Client.config := by decide

/-- C3 (amended): for every request that sets at least one of the
password / private-key-path fields, the configuration used for dialing
equals the session factory output on the three request-level fields alone
(service defaults wholesale replaced); in particular a request-level
password is used exclusively, whatever the service default holds. -/
theorem request_credential_override_is_wholesale (env : Env) (defc : ClientConfig)
    (req : FileTransferRequest) (h : req.password ≠ "" ∨ req.privateKeyPath ≠ "") :
    (Ssh.resolveDialConfig env defc req).2 =
      ((Ssh.NewClient env req.username req.password req.privateKeyPath).2).map
        Client.config ∧
    (req.password ≠ "" →
      (Ssh.resolveDialConfig env defc req).2 =
        .ok { user := req.username, auth := [.password req.password] }) := by
  unfold Ssh.resolveDialConfig Ssh.NewClient
  split
  · split
    · rename_i hp
      simp [Except.map]
    · rename_i hp
      simp at hp
      split
      · rename_i hk
        split
        · simp_all [Except.map]
        · split <;> simp_all [Except.map]
      · rename_i hk
        simp at hk
        simp_all
  · rename_i hcond
    push_neg at hcond
    rcases h with h | h
    · exact absurd hcond.2.1 h
    · exact absurd hcond.2.2 h

/-- Witness for C3: a request carrying only a password, against a
service default that authenticates only by private key, dials with the
request password alone. -/
theorem request_credential_override_is_wholesale_witness :
    ((Ssh.resolveDialConfig envAllOk keyClient.config reqPwOnly).2 =
      ((Ssh.NewClient envAllOk reqPwOnly.username reqPwOnly.password
          reqPwOnly.privateKeyPath).2).map Client.config) ∧
    (reqPwOnly.password ≠ "" →
      (Ssh.resolveDialConfig envAllOk keyClient.config reqPwOnly).2 =
        .ok { user := reqPwOnly.username, auth := [.password reqPwOnly.password] }) :=
  request_credential_override_is_wholesale envAllOk keyClient.config reqPwOnly
    (Or.inl (by decide))

/-- C4: when neither the request nor the service defaults supply a
password or a key path, the handler performs no dial at all, and (when the
payload passes validation) fails at client creation with the no-credential
error. -/
theorem no_dial_without_resolvable_credentials (s : Config) (env : Env)
    (req0 : FileTransferRequest)
    (hp : req0.password = "") (hkp : req0.privateKeyPath = "")
    (hsp : s.sshPassword = "") (hsk : s.sshKeyPath = "") :
    hasDial (Api.TransferFile s env req0).1 = false ∧
    (Api.validateRequest req0 = true →
      (Api.TransferFile s env req0).2 =
        .apiError "Failed to create SSH client" ClientError.noCredential.message) := by
  unfold Api.TransferFile
  rcases hv : Api.validateRequest req0 with _ | _
  · simp [hv, hasDial]
  · by_cases hport : req0.targetPort = 0 <;>
      simp [hv, hport, hp, hkp, hsp, hsk, Ssh.NewClient, hasDial, ClientError.message]

/-- Witness for C4: a credential-free request against a credential-free
service configuration produces no dial and the no-credential error. -/
theorem no_dial_without_resolvable_credentials_witness :
    hasDial (Api.TransferFile cfgNoCreds envAllOk reqPlain).1 = false ∧
    (Api.validateRequest reqPlain = true →
      (Api.TransferFile cfgNoCreds envAllOk reqPlain).2 =
        .apiError "Failed to create SSH client" ClientError.noCredential.message) :=
  no_dial_without_resolvable_credentials cfgNoCreds envAllOk reqPlain rfl rfl rfl rfl

/-- C5: the session factory fails with the no-credential error exactly
when both password and keyPath are empty; with a non-empty password it
authenticates by password and performs no key-file read; with only a
keyPath it fails with the key-read error when the path is unreadable and
with the key-parse error when the contents are not a valid key. -/
theorem newClient_credential_taxonomy (env : Env) (u p k : String) :
    ((Ssh.NewClient env u p k).2 = .error .noCredential ↔ (p = "" ∧ k = "")) ∧
    (p ≠ "" → Ssh.NewClient env u p k =
        ([], .ok ⟨{ user := u, auth := [.password p] }⟩)) ∧
    (p = "" → k ≠ "" → env.localFiles k = none →
        (Ssh.NewClient env u p k).2 = .error (.keyRead k)) ∧
    (∀ c, p = "" → k ≠ "" → env.localFiles k = some c → env.keyParse c = none →
        (Ssh.NewClient env u p k).2 = .error (.keyParse k)) := by
  unfold Ssh.NewClient
  split
  · rename_i hp
    simp_all
  · rename_i hp
    simp at hp
    split
    · rename_i hk
      split
      · simp_all
      · rename_i c hc
        split <;> simp_all
    · rename_i hk
      simp at hk
      simp_all

/-- Witness for C5: with both password and key path supplied, the factory
authenticates by password and reads no key file (empty trace). -/
theorem newClient_credential_taxonomy_witness :
    Ssh.NewClient envAllOk "svc" "pw" "/k" =
      ([], .ok ⟨{ user := "svc", auth := [.password "pw"] }⟩) :=
  (newClient_credential_taxonomy envAllOk "svc" "pw" "/k").2.1 (by decide)

/-- C6: every result returned by the transfer operation satisfies the
status/error invariant — failed results carry a non-empty error string,
completed results carry an empty one — and when the copy stage was reached
and failed, the result is failed with bytesWritten equal to the partial
byte count of the copy. -/
theorem failed_result_invariant (env : Env) (c : Client) (req : FileTransferRequest)
    (tr : List Event) (ro : Option FileTransferResponse) (eo : Option String)
    (r : FileTransferResponse)
    (hret : Ssh.TransferFile env c req = (tr, ro, eo)) (hr : ro = some r) :
    (r.status = "failed" → r.error ≠ "") ∧
    (r.status = "completed" → r.error = "") ∧
    (∀ m msg, env.copyOutcome = .fail m msg → Event.copyAttempt ∈ tr →
      r.status = "failed" ∧ r.bytesWritten = m) := by
  rcases transfer_cases env c req tr ro eo hret with
    ⟨tr0, e, hres, htr, hro, heo⟩ |
    ⟨tr0, config, e, hres, hd, htr, hro, heo⟩ |
    ⟨tr0, config, e, hres, hd, hs, htr, hro, heo⟩ |
    ⟨tr0, config, hres, hd, hs, hsrc, htr, hro, heo⟩ |
    ⟨tr0, config, contents, e, hres, hd, hs, hsrc, hmk, htr, hro, heo⟩ |
    ⟨tr0, config, contents, e, hres, hd, hs, hsrc, hmk, hcr, htr, hro, heo⟩ |
    ⟨tr0, config, contents, m, msg, hres, hd, hs, hsrc, hmk, hcr, hcp, htr, hro, heo⟩ |
    ⟨tr0, config, contents, hres, hd, hs, hsrc, hmk, hcr, hcp, htr, hro, heo⟩
  · rw [hro] at hr; cases hr
  all_goals (rw [hro] at hr; injection hr with hr2; subst hr2)
  all_goals (rcases resolveDialConfig_trace2 env c.config req tr0 _ hres with rfl | rfl <;> subst htr)
  all_goals (refine ⟨?_, ?_, ?_⟩)
  all_goals (first
    | (intro hstat; exact append_left_ne_empty _ _ (by decide))
    | (intro hstat; exfalso; simp [Ssh.failResp] at hstat; done)
    | (intro hstat; exact rfl)
    | (intro m2 msg2 hcp2 hmem; exfalso; simp at hmem; done)
    | (intro m2 msg2 hcp2 hmem; rw [hcp] at hcp2; injection hcp2 with hm hmsg; subst hm; exact ⟨rfl, rfl⟩)
    | (intro m2 msg2 hcp2 hmem; rw [hcp] at hcp2; cases hcp2))

/-- Witness for C6: the invariant applied to the result of an environment
whose copy fails after 3 bytes. -/
theorem failed_result_invariant_witness :
    (respCopyFail.status = "failed" → respCopyFail.error ≠ "") ∧
    (respCopyFail.status = "completed" → respCopyFail.error = "") ∧
    (∀ m msg, envCopyFail.copyOutcome = .fail m msg →
      Event.copyAttempt ∈ (Ssh.TransferFile envCopyFail defClient reqPlain).1 →
      respCopyFail.status = "failed" ∧ respCopyFail.bytesWritten = m) :=
  failed_result_invariant envCopyFail defClient reqPlain
    (Ssh.TransferFile envCopyFail defClient reqPlain).1
    (Ssh.TransferFile envCopyFail defClient reqPlain).2.1
    (Ssh.TransferFile envCopyFail defClient reqPlain).2.2
    respCopyFail rfl (by decide)

/-- C7 (code evaluated at the failing input): a request whose target_port
is zero is rejected by the required-field binding validation with a 400
error before any processing — the handler branch that defaults the port to
22 is never reached, and no dial occurs. -/
theorem zero_port_request_rejected_by_binding :
    Api.TransferFile cfgSvc envAllOk reqZeroPort =
      ([], .badRequest "Invalid request payload"
        "binding: required field has zero value") ∧
    hasDial (Api.TransferFile cfgSvc envAllOk reqZeroPort).1 = false := by decide

/-- C8: on every execution path of the transfer operation, each of the
four resources (transport connection, SFTP session, local source handle,
remote destination handle) is released in the trace exactly as many times
as it was acquired, before the operation returns. -/
theorem all_opened_resources_released (env : Env) (c : Client)
    (req : FileTransferRequest) :
    resourcesBalanced (Ssh.TransferFile env c req).1 = true := by
  rcases hall : Ssh.TransferFile env c req with ⟨tr, ro, eo⟩
  rcases transfer_cases env c req tr ro eo hall with
    ⟨tr0, e, hres, htr, hro, heo⟩ |
    ⟨tr0, config, e, hres, hd, htr, hro, heo⟩ |
    ⟨tr0, config, e, hres, hd, hs, htr, hro, heo⟩ |
    ⟨tr0, config, hres, hd, hs, hsrc, htr, hro, heo⟩ |
    ⟨tr0, config, contents, e, hres, hd, hs, hsrc, hmk, htr, hro, heo⟩ |
    ⟨tr0, config, contents, e, hres, hd, hs, hsrc, hmk, hcr, htr, hro, heo⟩ |
    ⟨tr0, config, contents, m, msg, hres, hd, hs, hsrc, hmk, hcr, hcp, htr, hro, heo⟩ |
    ⟨tr0, config, contents, hres, hd, hs, hsrc, hmk, hcr, hcp, htr, hro, heo⟩
  all_goals (rcases resolveDialConfig_trace2 env c.config req tr0 _ hres with rfl | rfl <;> rw [htr] <;> rfl)

/-- C9 (counterexample): in a fully successful concrete run, the local
source file is opened strictly BEFORE the remote destination directory is
ensured, refuting the claimed order (ensure remote directory before
opening the local source). -/
theorem source_opened_before_remote_mkdir :
    (Ssh.TransferFile envAllOk defClient reqPlain).1.indexOf
        (Event.srcOpen "/tmp/a.txt") <
      (Ssh.TransferFile envAllOk defClient reqPlain).1.indexOf
        (Event.mkdirAttempt "/remote/dir") ∧
    Event.mkdirAttempt "/remote/dir" ∈
      (Ssh.TransferFile envAllOk defClient reqPlain).1 := by decide

/-- C9 (amended): on every execution path, the stage-entry events of the
transfer trace form a prefix of the fixed order dial → open SFTP session →
open local source → ensure remote directory → create remote destination →
stream copy. -/
theorem pipeline_stage_order (env : Env) (c : Client) (req : FileTransferRequest) :
    ∃ k, stageFilter (Ssh.TransferFile env c req).1 = (fullStages req).take k := by
  rcases hall : Ssh.TransferFile env c req with ⟨tr, ro, eo⟩
  rcases transfer_cases env c req tr ro eo hall with
    ⟨tr0, e, hres, htr, hro, heo⟩ |
    ⟨tr0, config, e, hres, hd, htr, hro, heo⟩ |
    ⟨tr0, config, e, hres, hd, hs, htr, hro, heo⟩ |
    ⟨tr0, config, hres, hd, hs, hsrc, htr, hro, heo⟩ |
    ⟨tr0, config, contents, e, hres, hd, hs, hsrc, hmk, htr, hro, heo⟩ |
    ⟨tr0, config, contents, e, hres, hd, hs, hsrc, hmk, hcr, htr, hro, heo⟩ |
    ⟨tr0, config, contents, m, msg, hres, hd, hs, hsrc, hmk, hcr, hcp, htr, hro, heo⟩ |
    ⟨tr0, config, contents, hres, hd, hs, hsrc, hmk, hcr, hcp, htr, hro, heo⟩
  · refine ⟨0, ?_⟩
    rcases resolveDialConfig_trace2 env c.config req tr0 _ hres with rfl | rfl <;> rw [htr] <;> rfl
  · refine ⟨1, ?_⟩
    rcases resolveDialConfig_trace2 env c.config req tr0 _ hres with rfl | rfl <;> rw [htr] <;> rfl
  · refine ⟨2, ?_⟩
    rcases resolveDialConfig_trace2 env c.config req tr0 _ hres with rfl | rfl <;> rw [htr] <;> rfl
  · refine ⟨3, ?_⟩
    rcases resolveDialConfig_trace2 env c.config req tr0 _ hres with rfl | rfl <;> rw [htr] <;> rfl
  · refine ⟨4, ?_⟩
    rcases resolveDialConfig_trace2 env c.config req tr0 _ hres with rfl | rfl <;> rw [htr] <;> rfl
  · refine ⟨5, ?_⟩
    rcases resolveDialConfig_trace2 env c.config req tr0 _ hres with rfl | rfl <;> rw [htr] <;> rfl
  · refine ⟨6, ?_⟩
    rcases resolveDialConfig_trace2 env c.config req tr0 _ hres with rfl | rfl <;> rw [htr] <;> rfl
  · refine ⟨6, ?_⟩
    rcases resolveDialConfig_trace2 env c.config req tr0 _ hres with rfl | rfl <;> rw [htr] <;> rfl

/-- C10: every result returned by the transfer operation carries an empty
identifier when failed; the time-derived identifier is populated (and
non-empty) exactly on the completed path. -/
theorem failed_result_has_empty_id (env : Env) (c : Client) (req : FileTransferRequest)
    (tr : List Event) (ro : Option FileTransferResponse) (eo : Option String)
    (r : FileTransferResponse)
    (hret : Ssh.TransferFile env c req = (tr, ro, eo)) (hr : ro = some r) :
    (r.status = "failed" → r.id = "") ∧
    (r.status = "completed" →
      r.id = "transfer-" ++ toString (env.nano + 2) ∧ r.id ≠ "") := by
  rcases transfer_cases env c req tr ro eo hret with
    ⟨tr0, e, hres, htr, hro, heo⟩ |
    ⟨tr0, config, e, hres, hd, htr, hro, heo⟩ |
    ⟨tr0, config, e, hres, hd, hs, htr, hro, heo⟩ |
    ⟨tr0, config, hres, hd, hs, hsrc, htr, hro, heo⟩ |
    ⟨tr0, config, contents, e, hres, hd, hs, hsrc, hmk, htr, hro, heo⟩ |
    ⟨tr0, config, contents, e, hres, hd, hs, hsrc, hmk, hcr, htr, hro, heo⟩ |
    ⟨tr0, config, contents, m, msg, hres, hd, hs, hsrc, hmk, hcr, hcp, htr, hro, heo⟩ |
    ⟨tr0, config, contents, hres, hd, hs, hsrc, hmk, hcr, hcp, htr, hro, heo⟩
  · rw [hro] at hr; cases hr
  all_goals (rw [hro] at hr; injection hr with hr2; subst hr2)
  all_goals (refine ⟨?_, ?_⟩)
  all_goals (first
    | (intro hstat; exact rfl)
    | (intro hstat; exfalso; simp [Ssh.failResp] at hstat; done)
    | (intro hstat; exact ⟨rfl, append_left_ne_empty _ _ (by decide)⟩))

/-- Witness for C10: the completed result of a successful concrete run
carries the time-derived identifier. -/
theorem failed_result_has_empty_id_witness :
    (respOkPlain.status = "failed" → respOkPlain.id = "") ∧
    (respOkPlain.status = "completed" →
      respOkPlain.id = "transfer-" ++ toString (envAllOk.nano + 2) ∧
      respOkPlain.id ≠ "") :=
  failed_result_has_empty_id envAllOk defClient reqPlain
    (Ssh.TransferFile envAllOk defClient reqPlain).1
    (Ssh.TransferFile envAllOk defClient reqPlain).2.1
    (Ssh.TransferFile envAllOk defClient reqPlain).2.2
    respOkPlain rfl (by decide)

end SshFta
